import Mathlib

/-!
Verification of the ck-cashbook bookkeeping application (Django, `book` app).

This file shallowly embeds the parts of the source that the verified
properties are about:

* `book/utils.py` — `resolve_period`,
* `book/views.py` — `dashboard` (totals and team roster), `cash_in_create`,
  `cash_out_create`, `add_member`, `export_excel` (summary sheet),
  `export_pdf`, `create_transaction_category`,
* `book/forms.py` — `AddMemberForm` role choices, `CategoryForm` validation,
* `book/models.py` — the record shapes used by the above.

Python `datetime.date` values are modelled as year/month/day triples of
naturals (the embedding idealises the year range: CPython bounds years to
1..9999 while the analysed computations only ever move one month or one day).
Python `str` is modelled as Lean `String`; the database's binary collation on
the ASCII strings that get ordered coincides with Lean's `String` order.
-/

/-! ### Dates (`datetime.date`) -/

/-- Gregorian leap-year test, as `calendar.isleap`. -/
def isLeap (y : Nat) : Bool :=
  (y % 4 == 0 && y % 100 != 0) || y % 400 == 0

/-- Number of days in month `m` of year `y` (Gregorian calendar). -/
def daysInMonth (y m : Nat) : Nat :=
  match m with
  | 2 => if isLeap y then 29 else 28
  | 4 | 6 | 9 | 11 => 30
  | _ => 31

/-- A Python `datetime.date`: year, month, day. -/
structure PyDate where
  year : Nat
  month : Nat
  day : Nat
deriving DecidableEq, Repr

/-- The date is a real calendar date. -/
def PyDate.valid (d : PyDate) : Prop :=
  1 ≤ d.month ∧ d.month ≤ 12 ∧ 1 ≤ d.day ∧ d.day ≤ daysInMonth d.year d.month

instance (d : PyDate) : Decidable d.valid := by
  unfold PyDate.valid; infer_instance

/-- `d - timedelta(days=1)`: the previous calendar day. -/
def prevDay (d : PyDate) : PyDate :=
  if 1 < d.day then ⟨d.year, d.month, d.day - 1⟩
  else if 1 < d.month then ⟨d.year, d.month - 1, daysInMonth d.year (d.month - 1)⟩
  else ⟨d.year - 1, 12, 31⟩

/-- Chronological order on dates (lexicographic on year, month, day). -/
def dateLe (a b : PyDate) : Prop :=
  a.year < b.year ∨
    (a.year = b.year ∧
      (a.month < b.month ∨ (a.month = b.month ∧ a.day ≤ b.day)))

instance : DecidableRel dateLe := fun a b => by
  unfold dateLe; infer_instance

/-! ### `resolve_period` (`book/utils.py`)

```python
def resolve_period(period:str):
    today = date.today()
    if period == 'this_month':
        start = today.replace(day=1)
        if start.month == 12:
            end = start.replace(year=start.year+1, month=1, day=1) - timedelta(days=1)
        else:
            end = start.replace(month=start.month+1, day=1) - timedelta(days=1)
        return start, end
    if period == 'last_month':
        first_this = today.replace(day=1)
        end = first_this - timedelta(days=1)
        start = end.replace(day=1)
        return start, end
    if period == 'this_year':
        start = date(today.year,1,1)
        end = date(today.year,12,31)
        return start, end
    return None, None
```

The ambient `date.today()` is passed explicitly; the Python `(None, None)`
return is `Option.none`. -/

def resolve_period (period : String) (today : PyDate) : Option (PyDate × PyDate) :=
  if period = "this_month" then
    let start : PyDate := ⟨today.year, today.month, 1⟩
    if start.month = 12 then
      some (start, prevDay ⟨start.year + 1, 1, 1⟩)
    else
      some (start, prevDay ⟨start.year, start.month + 1, 1⟩)
  else if period = "last_month" then
    let firstThis : PyDate := ⟨today.year, today.month, 1⟩
    let last : PyDate := prevDay firstThis
    some (⟨last.year, last.month, 1⟩, last)
  else if period = "this_year" then
    some (⟨today.year, 1, 1⟩, ⟨today.year, 12, 31⟩)
  else
    none

/-- C5: for every valid current date, `resolve_period('this_month')` returns
the pair (first day of today's month, last day of today's month), and
start ≤ today ≤ end — also through the December year rollover branch. -/
theorem resolve_period_this_month (today : PyDate) (h : today.valid) :
    resolve_period "this_month" today =
      some (⟨today.year, today.month, 1⟩,
            ⟨today.year, today.month, daysInMonth today.year today.month⟩) ∧
    dateLe ⟨today.year, today.month, 1⟩ today ∧
    dateLe today ⟨today.year, today.month, daysInMonth today.year today.month⟩ := by
  obtain ⟨h1, h2, h3, h4⟩ := h
  refine ⟨?_, ?_, ?_⟩
  · by_cases h12 : today.month = 12
    · simp [resolve_period, h12, prevDay, daysInMonth]
    · have hmm : 1 < today.month + 1 := by omega
      simp [resolve_period, h12, prevDay, hmm]
  · unfold dateLe; simp; omega
  · unfold dateLe; simp; omega

/-- Witness for `resolve_period_this_month` at 2024-12-15 (December rollover). -/
theorem resolve_period_this_month_witness :
    (PyDate.mk 2024 12 15).valid ∧
    (resolve_period "this_month" ⟨2024, 12, 15⟩ =
        some (⟨2024, 12, 1⟩, ⟨2024, 12, 31⟩) ∧
      dateLe ⟨2024, 12, 1⟩ ⟨2024, 12, 15⟩ ∧
      dateLe ⟨2024, 12, 15⟩ ⟨2024, 12, 31⟩) :=
  ⟨by decide, resolve_period_this_month ⟨2024, 12, 15⟩ (by decide)⟩

/-- C6: for every valid current date, `resolve_period('last_month')` returns
an end date that is exactly one day before the start returned by
`resolve_period('this_month')`, and a start that is the first day of the
calendar month preceding today's month. -/
theorem resolve_period_last_month (today : PyDate) (h : today.valid) :
    ∃ s e s' e',
      resolve_period "last_month" today = some (s, e) ∧
      resolve_period "this_month" today = some (s', e') ∧
      e = prevDay s' ∧
      s = ⟨e.year, e.month, 1⟩ ∧
      (if today.month = 1 then s = ⟨today.year - 1, 12, 1⟩
       else s = ⟨today.year, today.month - 1, 1⟩) := by
  obtain ⟨h1, h2, h3, h4⟩ := h
  obtain ⟨hthis, -, -⟩ := resolve_period_this_month today ⟨h1, h2, h3, h4⟩
  by_cases hm : today.month = 1
  · refine ⟨⟨today.year - 1, 12, 1⟩, ⟨today.year - 1, 12, 31⟩, _, _, ?_, hthis, ?_, rfl, ?_⟩
    · simp [resolve_period, prevDay, hm]
    · simp [prevDay, hm]
    · simp [hm]
  · have hmm : 1 < today.month := by omega
    refine ⟨⟨today.year, today.month - 1, 1⟩,
      ⟨today.year, today.month - 1, daysInMonth today.year (today.month - 1)⟩,
      _, _, ?_, hthis, ?_, rfl, ?_⟩
    · simp [resolve_period, prevDay, hmm]
    · simp [prevDay, hmm]
    · simp [hm]

/-- Witness for `resolve_period_last_month` at 2025-01-07 (January, so the
preceding month is December of the previous year). -/
theorem resolve_period_last_month_witness :
    (PyDate.mk 2025 1 7).valid ∧
    ∃ s e s' e',
      resolve_period "last_month" ⟨2025, 1, 7⟩ = some (s, e) ∧
      resolve_period "this_month" ⟨2025, 1, 7⟩ = some (s', e') ∧
      e = prevDay s' ∧
      s = ⟨e.year, e.month, 1⟩ ∧
      (if (PyDate.mk 2025 1 7).month = 1 then s = ⟨2025 - 1, 12, 1⟩
       else s = ⟨2025, 1 - 1, 1⟩) :=
  ⟨by decide, resolve_period_last_month ⟨2025, 1, 7⟩ (by decide)⟩

/-! ### Python exceptions and `decimal.Decimal` string conversion

The dashboard totals run `Decimal(str(transaction.amount))` inside
`try: ... except (ValueError, TypeError): pass`.  In CPython, a malformed
numeric string makes the `Decimal` constructor raise
`decimal.InvalidOperation`, whose ancestry is
`InvalidOperation < DecimalException < ArithmeticError < Exception`;
it is **not** a `ValueError` and not a `TypeError`, so that `except`
clause does not catch it. -/

/-- The exception classes relevant to the analysed code paths. -/
inductive PyExc where
  | valueError
  | typeError
  | invalidOperation
deriving DecidableEq, Repr

instance {ε α : Type} [DecidableEq ε] [DecidableEq α] : DecidableEq (Except ε α) := fun a b =>
  match a, b with
  | Except.ok x, Except.ok y =>
      if h : x = y then isTrue (by rw [h]) else isFalse (by intro hc; cases hc; exact h rfl)
  | Except.error x, Except.error y =>
      if h : x = y then isTrue (by rw [h]) else isFalse (by intro hc; cases hc; exact h rfl)
  | Except.ok _, Except.error _ => isFalse (by intro hc; cases hc)
  | Except.error _, Except.ok _ => isFalse (by intro hc; cases hc)

/-- Strip surrounding whitespace, as the `Decimal` constructor does. -/
def stripWS (cs : List Char) : List Char :=
  ((cs.dropWhile Char.isWhitespace).reverse.dropWhile Char.isWhitespace).reverse

/-- Value of a nonempty digit string. -/
def digitsVal (cs : List Char) : Nat :=
  cs.foldl (fun a c => a * 10 + (c.toNat - 48)) 0

/-- Mantissa part of a decimal numeral: `digits [. digits]`, `digits .`,
or `. digits`, as accepted by `Decimal`. -/
def decMant (cs : List Char) : Option Rat :=
  let ip := cs.takeWhile Char.isDigit
  match cs.dropWhile Char.isDigit with
  | [] => if ip.isEmpty then none else some (digitsVal ip)
  | '.' :: fp =>
      if fp.all Char.isDigit ∧ (ip ≠ [] ∨ fp ≠ []) then
        some ((digitsVal (ip ++ fp) : Rat) / (10 : Rat) ^ fp.length)
      else none
  | _ => none

/-- Exponent part: optional sign followed by a nonempty digit string. -/
def decExp (cs : List Char) : Option Int :=
  match cs with
  | '+' :: ds => if ds.all Char.isDigit ∧ ds ≠ [] then some (digitsVal ds) else none
  | '-' :: ds => if ds.all Char.isDigit ∧ ds ≠ [] then some (-(digitsVal ds : Int)) else none
  | ds => if ds.all Char.isDigit ∧ ds ≠ [] then some (digitsVal ds) else none

/-- Unsigned decimal numeral with optional `e`/`E` exponent. -/
def decUnsigned (cs : List Char) : Option Rat :=
  let mant := cs.takeWhile (fun c => c ≠ 'e' ∧ c ≠ 'E')
  match cs.dropWhile (fun c => c ≠ 'e' ∧ c ≠ 'E') with
  | [] => decMant mant
  | _ :: ex => do
      let m ← decMant mant
      let e ← decExp ex
      pure (m * (10 : Rat) ^ e)

/-- Optionally signed decimal numeral. -/
def decSigned (cs : List Char) : Option Rat :=
  match cs with
  | '+' :: rest => decUnsigned rest
  | '-' :: rest => (decUnsigned rest).map (fun q => -q)
  | rest => decUnsigned rest

/-- `Decimal(s)` for a Python `str` `s`: surrounding whitespace is ignored,
then the numeral grammar `[sign] digits [. digits] [(e|E) [sign] digits]`
must match, else the constructor raises `decimal.InvalidOperation`.
(The special forms `NaN`/`Infinity` of the full grammar are not used by any
amount considered here and are omitted.) -/
def decimalParse (s : String) : Except PyExc Rat :=
  match decSigned (stripWS s.data) with
  | some q => Except.ok q
  | none => Except.error PyExc.invalidOperation

/-! ### Transactions and the dashboard totals (`book/views.py::dashboard`) -/

/-- The two transaction kinds (`Transaction.Kind`). -/
inductive TxKind where
  | CASH_IN
  | CASH_OUT
deriving DecidableEq, Repr

/-- Database value of a kind (`models.TextChoices`). -/
def kindStr : TxKind → String
  | TxKind.CASH_IN => "CASH_IN"
  | TxKind.CASH_OUT => "CASH_OUT"

/-- A `Transaction` row (`book/models.py`): the amount is free text
(`CharField(max_length=40)`); `category` is the foreign key id and
`created_by` the creator's username. -/
structure Transaction where
  business : Nat
  kind : TxKind
  amount : String
  date : PyDate
  details : String
  category : Nat
  created_by : String
deriving DecidableEq, Repr

/-- The dashboard's filtered queryset:
`Transaction.objects.filter(business_id=biz_id)` then
`.filter(date__gte=date_from)` / `.filter(date__lte=date_to)` when the
bounds are present. -/
def dashboard_tx (biz : Nat) (dateFrom dateTo : Option PyDate)
    (txs : List Transaction) : List Transaction :=
  ((txs.filter (fun t => t.business = biz)).filter
      (fun t => match dateFrom with
        | some d => decide (dateLe d t.date)
        | none => true)).filter
    (fun t => match dateTo with
      | some d => decide (dateLe t.date d)
      | none => true)

/-- The totals loop of `dashboard`:

```python
for transaction in tx.filter(kind=...):
    try:
        total += Decimal(str(transaction.amount))
    except (ValueError, TypeError):
        pass
```

An `InvalidOperation` raised by `Decimal` is outside the caught classes and
propagates out of the view (modelled as `Except.error`). -/
def dashboard_total (k : TxKind) (txs : List Transaction) : Except PyExc Rat :=
  (txs.filter (fun t => t.kind = k)).foldlM
    (fun acc t =>
      match decimalParse t.amount with
      | Except.ok v => Except.ok (acc + v)
      | Except.error e =>
          if e = PyExc.valueError ∨ e = PyExc.typeError then Except.ok acc
          else Except.error e)
    (0 : Rat)

/-- The scenario transaction with a well-formed amount. -/
def txAmountOk : Transaction :=
  { business := 1, kind := TxKind.CASH_IN, amount := "100.50",
    date := ⟨2025, 10, 5⟩, details := "sale", category := 3, created_by := "owner1" }

/-- The scenario transaction with the non-numeric amount. -/
def txAmountBad : Transaction :=
  { business := 1, kind := TxKind.CASH_IN, amount := "abc",
    date := ⟨2025, 10, 6⟩, details := "typo", category := 3, created_by := "owner1" }

/-- C1 (code bug): on the claim's own scenario — current-month CASH_IN
amounts `"100.50"` and `"abc"` — the dashboard total computation does not
skip the malformed record and yield `100.50`: `Decimal("abc")` raises
`InvalidOperation`, which `except (ValueError, TypeError)` does not catch,
so the error escapes the view instead of a total being produced. -/
theorem dashboard_total_in_raises :
    dashboard_total TxKind.CASH_IN
        (dashboard_tx 1 (some ⟨2025, 10, 1⟩) (some ⟨2025, 10, 31⟩)
          [txAmountOk, txAmountBad]) =
      Except.error PyExc.invalidOperation ∧
    dashboard_total TxKind.CASH_IN
        (dashboard_tx 1 (some ⟨2025, 10, 1⟩) (some ⟨2025, 10, 31⟩)
          [txAmountOk, txAmountBad]) ≠
      Except.ok ((201 : Rat) / 2) := by
  exact ⟨by decide, by decide⟩

/-! ### Binary-collation string order

The roster and export queries order `CharField` values; on the ASCII values
involved the database's binary collation is plain code-point lexicographic
order, modelled structurally here (core `String.lt` is avoided because its
decision procedure is not kernel-reducible). -/

/-- Code-point lexicographic order on character lists. -/
def charsLt : List Char → List Char → Bool
  | _, [] => false
  | [], _ :: _ => true
  | a :: as, b :: bs =>
      if a.toNat < b.toNat then true
      else if b.toNat < a.toNat then false
      else charsLt as bs

/-- Strict lexicographic order on strings. -/
def strLt (a b : String) : Prop := charsLt a.data b.data = true

/-- Non-strict lexicographic order on strings. -/
def strLe (a b : String) : Prop := strLt a b ∨ a = b

instance : DecidableRel strLt := fun a b => by
  unfold strLt; infer_instance

instance : DecidableRel strLe := fun a b => by
  unfold strLe strLt; infer_instance

theorem char_toNat_inj {a b : Char} (h : a.toNat = b.toNat) : a = b := by
  cases a; cases b
  congr 1
  exact UInt32.ext h

theorem string_data_inj {a b : String} (h : a.data = b.data) : a = b := by
  cases a; cases b
  exact congrArg String.mk (by simpa using h)

theorem charsLt_trans :
    ∀ (a b c : List Char), charsLt a b = true → charsLt b c = true → charsLt a c = true := by
  intro a
  induction a with
  | nil =>
      intro b c hab hbc
      cases c with
      | nil => cases b <;> simp [charsLt] at hbc
      | cons z zs => simp [charsLt]
  | cons x xs ih =>
      intro b c hab hbc
      cases b with
      | nil => simp [charsLt] at hab
      | cons y ys =>
        cases c with
        | nil => simp [charsLt] at hbc
        | cons z zs =>
          by_cases h1 : x.toNat < y.toNat
          · by_cases h2 : y.toNat < z.toNat
            · have h3 : x.toNat < z.toNat := h1.trans h2
              simp [charsLt, h3]
            · by_cases h3 : z.toNat < y.toNat
              · rw [charsLt] at hbc; simp [h2, h3] at hbc
              · have h4 : x.toNat < z.toNat := by omega
                simp [charsLt, h4]
          · by_cases h1' : y.toNat < x.toNat
            · rw [charsLt] at hab; simp [h1, h1'] at hab
            · rw [charsLt] at hab
              simp only [if_neg h1, if_neg h1'] at hab
              by_cases h2 : y.toNat < z.toNat
              · have h4 : x.toNat < z.toNat := by omega
                simp [charsLt, h4]
              · by_cases h3 : z.toNat < y.toNat
                · rw [charsLt] at hbc; simp [h2, h3] at hbc
                · rw [charsLt] at hbc
                  simp only [if_neg h2, if_neg h3] at hbc
                  have h4 : ¬ x.toNat < z.toNat := by omega
                  have h5 : ¬ z.toNat < x.toNat := by omega
                  rw [charsLt]
                  simp only [if_neg h4, if_neg h5]
                  exact ih ys zs hab hbc

theorem charsLt_trichotomy :
    ∀ (a b : List Char), charsLt a b = true ∨ a = b ∨ charsLt b a = true := by
  intro a
  induction a with
  | nil =>
      intro b
      cases b with
      | nil => exact Or.inr (Or.inl rfl)
      | cons y ys => exact Or.inl (by simp [charsLt])
  | cons x xs ih =>
      intro b
      cases b with
      | nil => exact Or.inr (Or.inr (by simp [charsLt]))
      | cons y ys =>
        by_cases h1 : x.toNat < y.toNat
        · exact Or.inl (by simp [charsLt, h1])
        · by_cases h2 : y.toNat < x.toNat
          · exact Or.inr (Or.inr (by simp [charsLt, h2]))
          · have hxy : x = y := char_toNat_inj (by omega)
            subst hxy
            rcases ih ys with h | h | h
            · exact Or.inl (by rw [charsLt]; simp [h])
            · exact Or.inr (Or.inl (by rw [h]))
            · exact Or.inr (Or.inr (by rw [charsLt]; simp [h]))

theorem strLt_trans {a b c : String} (h1 : strLt a b) (h2 : strLt b c) : strLt a c :=
  charsLt_trans a.data b.data c.data h1 h2

theorem strLt_trichotomy (a b : String) : strLt a b ∨ a = b ∨ strLt b a := by
  rcases charsLt_trichotomy a.data b.data with h | h | h
  · exact Or.inl h
  · exact Or.inr (Or.inl (string_data_inj h))
  · exact Or.inr (Or.inr h)

theorem strLe_trans {a b c : String} (h1 : strLe a b) (h2 : strLe b c) : strLe a c := by
  rcases h1 with h1 | h1 <;> rcases h2 with h2 | h2
  · exact Or.inl (strLt_trans h1 h2)
  · exact Or.inl (h2 ▸ h1)
  · exact Or.inl (h1 ▸ h2)
  · exact Or.inr (h1.trans h2)

theorem strLe_total (a b : String) : strLe a b ∨ strLe b a := by
  rcases strLt_trichotomy a b with h | h | h
  · exact Or.inl (Or.inl h)
  · exact Or.inl (Or.inr h)
  · exact Or.inr (Or.inl h)

/-! ### Roles and the dashboard team roster (`book/views.py::dashboard`)

`team_members = Membership.objects.filter(business_id=biz_id)
    .order_by('-role', 'user__first_name', 'user__last_name')`

`role` is a `CharField` holding `'OWNER' | 'ADMIN' | 'STAFF'`, so the
database orders the **strings**: descending role order gives
`"STAFF" > "OWNER" > "ADMIN"`. -/

/-- `Membership.Role` (`book/models.py`). -/
inductive Role where
  | OWNER
  | ADMIN
  | STAFF
deriving DecidableEq, Repr

/-- Database value of a role (`models.TextChoices`). -/
def roleStr : Role → String
  | Role.OWNER => "OWNER"
  | Role.ADMIN => "ADMIN"
  | Role.STAFF => "STAFF"

/-- A membership row joined with its user's names, as the roster query sees it. -/
structure MemberRow where
  role : Role
  first_name : String
  last_name : String
deriving DecidableEq, Repr

/-- Tie-break key: `user__first_name` ascending, then `user__last_name` ascending. -/
def nameLe (a b : MemberRow) : Prop :=
  strLt a.first_name b.first_name ∨
    (a.first_name = b.first_name ∧ strLe a.last_name b.last_name)

/-- The `ORDER BY role DESC, first_name ASC, last_name ASC` relation. -/
def rosterLe (a b : MemberRow) : Prop :=
  strLt (roleStr b.role) (roleStr a.role) ∨
    (roleStr a.role = roleStr b.role ∧ nameLe a b)

instance : DecidableRel nameLe := fun a b => by
  unfold nameLe; infer_instance

instance : DecidableRel rosterLe := fun a b => by
  unfold rosterLe; infer_instance

theorem nameLe_total (a b : MemberRow) : nameLe a b ∨ nameLe b a := by
  unfold nameLe
  rcases strLt_trichotomy a.first_name b.first_name with h | h | h
  · exact Or.inl (Or.inl h)
  · rcases strLe_total a.last_name b.last_name with h' | h'
    · exact Or.inl (Or.inr ⟨h, h'⟩)
    · exact Or.inr (Or.inr ⟨h.symm, h'⟩)
  · exact Or.inr (Or.inl h)

theorem nameLe_trans {a b c : MemberRow} (h1 : nameLe a b) (h2 : nameLe b c) :
    nameLe a c := by
  unfold nameLe at *
  rcases h1 with h1 | ⟨h1, h1'⟩ <;> rcases h2 with h2 | ⟨h2, h2'⟩
  · exact Or.inl (strLt_trans h1 h2)
  · exact Or.inl (h2 ▸ h1)
  · exact Or.inl (h1 ▸ h2)
  · exact Or.inr ⟨h1.trans h2, strLe_trans h1' h2'⟩

instance : IsTotal MemberRow rosterLe := ⟨by
  intro a b
  unfold rosterLe
  rcases strLt_trichotomy (roleStr a.role) (roleStr b.role) with h | h | h
  · exact Or.inr (Or.inl h)
  · rcases nameLe_total a b with h' | h'
    · exact Or.inl (Or.inr ⟨h, h'⟩)
    · exact Or.inr (Or.inr ⟨h.symm, h'⟩)
  · exact Or.inl (Or.inl h)⟩

instance : IsTrans MemberRow rosterLe := ⟨by
  intro a b c h1 h2
  unfold rosterLe at *
  rcases h1 with h1 | ⟨h1, h1'⟩ <;> rcases h2 with h2 | ⟨h2, h2'⟩
  · exact Or.inl (strLt_trans h2 h1)
  · exact Or.inl (h2 ▸ h1)
  · exact Or.inl (h1 ▸ h2)
  · exact Or.inr ⟨h1.trans h2, nameLe_trans h1' h2'⟩⟩

/-- The team roster: the memberships of the business in the order the
database produces for `ORDER BY role DESC, first_name, last_name`
(modelled as a stable sort by that relation). -/
def team_members (ms : List MemberRow) : List MemberRow :=
  List.insertionSort rosterLe ms

/-- Rank of a role in the order the roster query actually produces
(descending **string** order: `"STAFF" > "OWNER" > "ADMIN"`). -/
def roleSortRank : Role → Nat
  | Role.STAFF => 2
  | Role.OWNER => 1
  | Role.ADMIN => 0

/-- Rank of a role in descending **privilege** order, as the claim reads it. -/
def privRank : Role → Nat
  | Role.OWNER => 2
  | Role.ADMIN => 1
  | Role.STAFF => 0

/-- The claim's reading of the roster order: every OWNER row before every
ADMIN row, every ADMIN row before every STAFF row. -/
def privilegeOrdered (l : List MemberRow) : Prop :=
  l.Pairwise (fun a b => privRank b.role ≤ privRank a.role)

instance (l : List MemberRow) : Decidable (privilegeOrdered l) := by
  unfold privilegeOrdered; infer_instance

theorem roleStr_lt_iff (r r' : Role) :
    strLt (roleStr r) (roleStr r') ↔ roleSortRank r < roleSortRank r' := by
  cases r <;> cases r' <;> decide

theorem roleStr_inj (r r' : Role) (h : roleStr r = roleStr r') : r = r' := by
  cases r <;> cases r' <;> first | rfl | (exact absurd h (by decide))

theorem rosterLe_rank {a b : MemberRow} (h : rosterLe a b) :
    roleSortRank b.role ≤ roleSortRank a.role := by
  rcases h with h | ⟨h, -⟩
  · exact le_of_lt ((roleStr_lt_iff b.role a.role).mp h)
  · rw [roleStr_inj a.role b.role h]

/-- A roster row for an OWNER. -/
def rowOwner : MemberRow := ⟨Role.OWNER, "Ada", "Ash"⟩

/-- A roster row for a STAFF member. -/
def rowStaff : MemberRow := ⟨Role.STAFF, "Bob", "Beck"⟩

/-- C2 counterexample: for a business whose memberships are one OWNER and one
STAFF, the roster places the STAFF row **before** the OWNER row
(`'STAFF' > 'OWNER'` as strings), so the claimed OWNER-before-STAFF order
fails. -/
theorem team_members_privilege_counterexample :
    team_members [rowOwner, rowStaff] = [rowStaff, rowOwner] ∧
    ¬ privilegeOrdered (team_members [rowOwner, rowStaff]) :=
  ⟨by decide, by decide⟩

/-- C2 (amended): the team roster is a permutation of the memberships,
ordered by role **string** descending — every STAFF row before every OWNER
row and every OWNER row before every ADMIN row — with ties broken by the
user's first then last name (the `rosterLe` relation). -/
theorem team_members_order (ms : List MemberRow) :
    (team_members ms).Perm ms ∧
    (team_members ms).Pairwise rosterLe ∧
    (team_members ms).Pairwise (fun a b => roleSortRank b.role ≤ roleSortRank a.role) :=
  ⟨List.perm_insertionSort rosterLe ms,
   List.sorted_insertionSort rosterLe ms,
   (List.sorted_insertionSort rosterLe ms).imp (fun h => rosterLe_rank h)⟩

/-! ### HTTP responses and the recording flows
(`book/views.py::cash_in_create`, `cash_out_create`)

Both views run under `@require_membership` (caller authenticated, a business
selected, a membership row exists); the caller's role for the selected
business, the session's `biz_id`, the posted form fields and the existing
transaction rows are the inputs.  Only the `POST` path is modelled. -/

/-- Flash message level (`django.contrib.messages`). -/
inductive FlashLevel where
  | success
  | error
  | info
deriving DecidableEq, Repr

/-- The response shapes produced by the embedded views. -/
inductive HttpResp where
  | forbidden (msg : String)
  | redirect (target : String) (flash : Option (FlashLevel × String))
  | render (template : String) (flash : Option (FlashLevel × String))
  | json (ok : Bool) (status : Nat)
deriving DecidableEq, Repr

/-- Whether the response is an explicit forbidden result
(`HttpResponseForbidden`). -/
def isForbiddenResp : HttpResp → Bool
  | HttpResp.forbidden _ => true
  | _ => false

/-- Whether the response is the success outcome of a recording flow
(redirect carrying a `messages.success` flash). -/
def isSuccessResp : HttpResp → Bool
  | HttpResp.redirect _ (some (FlashLevel.success, _)) => true
  | _ => false

/-- The posted fields of `CashInForm` / `CashOutForm`
(`fields = ['business','category','details','date','amount','photo']`;
the optional photo carries no constraint used here). -/
structure TxSubmission where
  business : Nat
  category : Nat
  details : String
  date : PyDate
  amount : String
deriving DecidableEq, Repr

/-- `ModelForm.is_valid()` for the two cash forms: the posted foreign keys
must name existing rows, the required text fields are bounded by the model's
`max_length` (`amount` ≤ 40 non-empty, `details` ≤ 240). -/
def cashFormValid (businesses categories : List Nat) (sub : TxSubmission) : Bool :=
  businesses.contains sub.business && categories.contains sub.category &&
    !(sub.amount = "") && sub.amount.length ≤ 40 && sub.details.length ≤ 240

/-- The transaction row `form.save(commit=False)` builds, after the view
stamps `obj.kind` and `obj.created_by` server-side. -/
def mkTx (k : TxKind) (user : String) (sub : TxSubmission) : Transaction :=
  { business := sub.business, kind := k, amount := sub.amount, date := sub.date,
    details := sub.details, category := sub.category, created_by := user }

/-- `cash_in_create` (POST): a role outside {OWNER, ADMIN} gets
`messages.error` plus a **redirect** to the transaction list; with a valid
form, a posted business different from the session's is answered with
`HttpResponseForbidden('Wrong business selected.')` before `obj.save()`;
otherwise the stamped row is saved and the view redirects with
`messages.success`. -/
def cash_in_create (businesses categories : List Nat) (role : Role) (sessionBiz : Nat)
    (user : String) (sub : TxSubmission) (store : List Transaction) :
    HttpResp × List Transaction :=
  if ¬(role = Role.OWNER ∨ role = Role.ADMIN) then
    (HttpResp.redirect "transactions_list" (some (FlashLevel.error, "You cannot access to this")),
      store)
  else if cashFormValid businesses categories sub then
    if sub.business ≠ sessionBiz then
      (HttpResp.forbidden "Wrong business selected.", store)
    else
      (HttpResp.redirect "transactions_list" (some (FlashLevel.success, "Cash In recorded.")),
        store ++ [mkTx TxKind.CASH_IN user sub])
  else
    (HttpResp.render "transactions/cash_in_form.html" none, store)

/-- `cash_out_create` (POST): a role outside {STAFF, OWNER} gets
`HttpResponseForbidden('Only staff/owner can record cash out.')`; the rest
mirrors `cash_in_create` with kind `CASH_OUT`. -/
def cash_out_create (businesses categories : List Nat) (role : Role) (sessionBiz : Nat)
    (user : String) (sub : TxSubmission) (store : List Transaction) :
    HttpResp × List Transaction :=
  if ¬(role = Role.STAFF ∨ role = Role.OWNER) then
    (HttpResp.forbidden "Only staff/owner can record cash out.", store)
  else if cashFormValid businesses categories sub then
    if sub.business ≠ sessionBiz then
      (HttpResp.forbidden "Wrong business selected.", store)
    else
      (HttpResp.redirect "transactions_list" (some (FlashLevel.success, "Cash Out recorded.")),
        store ++ [mkTx TxKind.CASH_OUT user sub])
  else
    (HttpResp.render "transactions/cash_out_form.html" none, store)

/-- A well-formed cash submission for business 1 with category 5. -/
def subBiz1 : TxSubmission :=
  { business := 1, category := 5, details := "lunch", date := ⟨2025, 10, 5⟩, amount := "10" }

/-- C3 counterexample: a STAFF-only member submitting cash-in is indeed
rejected without creating a transaction, but the rejection is a
**redirect** (with an error flash), not an explicit forbidden result. -/
theorem cash_in_staff_rejection_is_redirect :
    cash_in_create [1] [5] Role.STAFF 1 "staffer" subBiz1 [] =
      (HttpResp.redirect "transactions_list"
        (some (FlashLevel.error, "You cannot access to this")), []) ∧
    isForbiddenResp (cash_in_create [1] [5] Role.STAFF 1 "staffer" subBiz1 []).1 = false :=
  ⟨by decide, by decide⟩

/-- C3 (amended): a STAFF caller's cash-in submission is rejected with a
redirect to the transaction list (error flash, no transaction created),
while an ADMIN caller's cash-out submission is rejected with an explicit
forbidden result (no transaction created). -/
theorem cash_role_rejections (businesses categories : List Nat) (sessionBiz : Nat)
    (user : String) (sub : TxSubmission) (store : List Transaction) :
    cash_in_create businesses categories Role.STAFF sessionBiz user sub store =
      (HttpResp.redirect "transactions_list"
        (some (FlashLevel.error, "You cannot access to this")), store) ∧
    cash_out_create businesses categories Role.ADMIN sessionBiz user sub store =
      (HttpResp.forbidden "Only staff/owner can record cash out.", store) := by
  constructor
  · simp [cash_in_create]
  · simp [cash_out_create]

/-- C4: for every caller role and every submission naming a business other
than the session's selected one, both recording flows leave the transaction
store unchanged and do not produce the success outcome. -/
theorem wrong_business_rejected (businesses categories : List Nat) (role : Role)
    (sessionBiz : Nat) (user : String) (sub : TxSubmission) (store : List Transaction)
    (hb : sub.business ≠ sessionBiz) :
    (cash_in_create businesses categories role sessionBiz user sub store).2 = store ∧
    isSuccessResp (cash_in_create businesses categories role sessionBiz user sub store).1
      = false ∧
    (cash_out_create businesses categories role sessionBiz user sub store).2 = store ∧
    isSuccessResp (cash_out_create businesses categories role sessionBiz user sub store).1
      = false := by
  unfold cash_in_create cash_out_create
  split_ifs <;> simp_all [isSuccessResp]

/-- A submission naming business 2 while business 1 is selected. -/
def subBiz2 : TxSubmission :=
  { business := 2, category := 5, details := "supplies", date := ⟨2025, 10, 6⟩, amount := "7" }

/-- Witness for `wrong_business_rejected`: an OWNER posting for business 2
while business 1 is the session's selection. -/
theorem wrong_business_rejected_witness :
    subBiz2.business ≠ 1 ∧
    ((cash_in_create [1, 2] [5] Role.OWNER 1 "boss" subBiz2 []).2 = [] ∧
      isSuccessResp (cash_in_create [1, 2] [5] Role.OWNER 1 "boss" subBiz2 []).1 = false ∧
      (cash_out_create [1, 2] [5] Role.OWNER 1 "boss" subBiz2 []).2 = [] ∧
      isSuccessResp (cash_out_create [1, 2] [5] Role.OWNER 1 "boss" subBiz2 []).1 = false) :=
  ⟨by decide, wrong_business_rejected [1, 2] [5] Role.OWNER 1 "boss" subBiz2 [] (by decide)⟩

/-! ### Adding members (`book/forms.py::AddMemberForm`, `book/views.py::add_member`) -/

/-- A user account (`django.contrib.auth.models.User`), with the fields the
add-member flow reads. -/
structure PyUser where
  username : String
  email : String
deriving DecidableEq, Repr

/-- A `Membership` row keyed by username. -/
structure MembershipRec where
  user : String
  business : Nat
  role : Role
deriving DecidableEq, Repr

/-- `User.objects.get(email=email)`: signup enforces unique emails, so the
first match is the unique one; no match models `User.DoesNotExist`. -/
def findUserByEmail (users : List PyUser) (email : String) : Option PyUser :=
  users.find? (fun u => u.email = email)

/-- The role choices `AddMemberForm.__init__` installs for the caller's
role: OWNER may offer ADMIN or STAFF, ADMIN only STAFF, anyone else
nothing.  OWNER is never among the choices. -/
def roleChoices : Role → List Role
  | Role.OWNER => [Role.ADMIN, Role.STAFF]
  | Role.ADMIN => [Role.STAFF]
  | Role.STAFF => []

/-- `AddMemberForm.is_valid()`: the `ChoiceField` accepts only the installed
choices, and `clean_email` requires an existing account with that email.
(The e-mail syntax check of `EmailField` is orthogonal and not modelled:
an address accepted by `User.objects.get` lookup stands for a well-formed
one.) -/
def addMemberFormValid (users : List PyUser) (callerRole : Role)
    (email : String) (role : Role) : Bool :=
  (findUserByEmail users email).isSome && (roleChoices callerRole).contains role

/-- `add_member` (POST): non-OWNER/ADMIN callers get an explicit forbidden
result; with a valid form, an already-existing membership for the target
user yields `messages.error` and a re-render; otherwise the membership row
is created with the submitted role and the view redirects to the
dashboard. -/
def add_member (users : List PyUser) (memberships : List MembershipRec)
    (callerRole : Role) (bizId : Nat) (email : String) (role : Role) :
    HttpResp × List MembershipRec :=
  if ¬(callerRole = Role.OWNER ∨ callerRole = Role.ADMIN) then
    (HttpResp.forbidden "You do not have permission to add members.", memberships)
  else if addMemberFormValid users callerRole email role then
    match findUserByEmail users email with
    | some u =>
        if memberships.any (fun m => m.user = u.username && m.business = bizId) then
          (HttpResp.render "add_member.html"
            (some (FlashLevel.error, "This user is already a member of this business.")),
            memberships)
        else
          (HttpResp.redirect "dashboard" (some (FlashLevel.success, "member added")),
            memberships ++ [⟨u.username, bizId, role⟩])
    | none =>
        (HttpResp.render "add_member.html"
          (some (FlashLevel.error, "User with this email does not exist.")), memberships)
  else
    (HttpResp.render "add_member.html" none, memberships)

/-- C7: in the add-member flow, (a) an ADMIN caller submitting role OWNER or
ADMIN is rejected — the form's choices exclude them, so no membership is
created and the outcome is not the success redirect; (b) an OWNER caller
assigning ADMIN or STAFF to an existing user who is not yet a member
succeeds and creates exactly that membership; (c) no caller can ever create
a membership with role OWNER through this flow. -/
theorem add_member_role_ceiling (users : List PyUser) (ms : List MembershipRec)
    (biz : Nat) (email : String) :
    (∀ role, role = Role.OWNER ∨ role = Role.ADMIN →
      (add_member users ms Role.ADMIN biz email role).2 = ms ∧
      isSuccessResp (add_member users ms Role.ADMIN biz email role).1 = false) ∧
    (∀ role u, (role = Role.ADMIN ∨ role = Role.STAFF) →
      findUserByEmail users email = some u →
      (∀ m ∈ ms, ¬(m.user = u.username ∧ m.business = biz)) →
      (add_member users ms Role.OWNER biz email role).2 = ms ++ [⟨u.username, biz, role⟩]) ∧
    (∀ callerRole role m, m ∈ (add_member users ms callerRole biz email role).2 →
      m ∈ ms ∨ m.role ≠ Role.OWNER) := by
  refine ⟨?_, ?_, ?_⟩
  · rintro role (rfl | rfl) <;>
      · constructor
        · simp [add_member, addMemberFormValid, roleChoices]
        · simp [add_member, addMemberFormValid, roleChoices, isSuccessResp]
  · rintro role u hrole hu hnm
    have hvalid : addMemberFormValid users Role.OWNER email role = true := by
      rcases hrole with rfl | rfl <;> simp [addMemberFormValid, hu, roleChoices]
    have hmem : ms.any (fun m => m.user = u.username && m.business = biz) = false := by
      rw [List.any_eq_false]
      intro m hm
      have := hnm m hm
      simp only [Bool.and_eq_true, decide_eq_true_eq]
      tauto
    simp [add_member, hvalid, hu, hmem]
  · intro callerRole role m hm
    unfold add_member at hm
    by_cases hgate : callerRole = Role.OWNER ∨ callerRole = Role.ADMIN
    · rw [if_neg (not_not_intro hgate)] at hm
      by_cases hv : addMemberFormValid users callerRole email role = true
      · rw [if_pos hv] at hm
        cases hu : findUserByEmail users email with
        | none => simp only [hu] at hm; exact Or.inl hm
        | some u =>
            simp only [hu] at hm
            by_cases hex : (ms.any fun m => m.user = u.username && m.business = biz) = true
            · simp only [if_pos hex] at hm
              exact Or.inl hm
            · simp only [if_neg hex] at hm
              rcases List.mem_append.mp hm with hm' | hm'
              · exact Or.inl hm'
              · right
                have hrole : (roleChoices callerRole).contains role = true := by
                  unfold addMemberFormValid at hv
                  exact (Bool.and_eq_true _ _ |>.mp hv).2
                have hro : role ≠ Role.OWNER := by
                  intro hr
                  subst hr
                  cases callerRole <;> simp [roleChoices] at hrole
                rw [List.mem_singleton.mp hm']
                exact hro
      · rw [if_neg hv] at hm
        exact Or.inl hm
    · rw [if_pos hgate] at hm
      exact Or.inl hm

/-- An account for the add-member witness. -/
def userCara : PyUser := ⟨"cara", "cara@example.com"⟩

/-- Witness for `add_member_role_ceiling`: with one registered user and an
empty membership table, an ADMIN caller submitting role ADMIN changes
nothing, an OWNER caller assigning STAFF creates the row, and the created
rows carry no OWNER role. -/
theorem add_member_role_ceiling_witness :
    (add_member [userCara] [] Role.ADMIN 1 "cara@example.com" Role.ADMIN).2 = [] ∧
    (add_member [userCara] [] Role.OWNER 1 "cara@example.com" Role.STAFF).2 =
      [⟨"cara", 1, Role.STAFF⟩] := by
  have h1 := (add_member_role_ceiling [userCara] [] 1 "cara@example.com").1
    Role.ADMIN (Or.inr rfl)
  have h2 := (add_member_role_ceiling [userCara] [] 1 "cara@example.com").2.1
    Role.STAFF userCara (Or.inr rfl) (by decide) (by simp)
  exact ⟨h1.1, h2⟩

/-! ### Spreadsheet export summary (`book/views.py::export_excel`)

```python
df = pd.DataFrame(list(qs.values('date','kind','amount','details',
                                 'category__name','created_by__username')))
summary = df.groupby(['kind']).agg(total_amount=('amount','sum')).reset_index()
```

`amount` is a `CharField`, so the dataframe column has object (string)
dtype: the `'sum'` aggregation of a pandas object column reduces with `+`,
i.e. **concatenates** the amount strings per group (in row order); group
keys come out sorted ascending. -/

instance : IsTotal String strLe := ⟨strLe_total⟩

instance : IsTrans String strLe := ⟨fun _ _ _ => strLe_trans⟩

/-- One row of the export dataframe (`qs.values(...)` with the renames
applied). -/
structure ExcelRow where
  date : PyDate
  kind : TxKind
  amount : String
  details : String
  category : String
  created_by : String
deriving DecidableEq, Repr

/-- The distinct `kind` values of the exported rows, sorted ascending, as
pandas `groupby` orders its group keys. -/
def kindsSorted (rows : List ExcelRow) : List String :=
  List.insertionSort strLe ((rows.map (fun r => kindStr r.kind)).dedup)

/-- The `Summary` sheet: one `(kind, total_amount)` row per kind present,
where `total_amount` is pandas `sum` over the object-dtype `amount` column
of the group — the concatenation of the amount strings in row order. -/
def export_excel_summary (rows : List ExcelRow) : List (String × String) :=
  (kindsSorted rows).map (fun k =>
    (k, ((rows.filter (fun r => kindStr r.kind = k)).map (fun r => r.amount)).foldl
          (fun a s => a ++ s) ""))

/-- Modelled from the spec's words, for comparison: the **numeric** total of
the amounts of the exported rows of kind `k` (summing every amount that
parses as a decimal numeral). -/
def summaryNumericTotalSpec (rows : List ExcelRow) (k : String) : Rat :=
  ((rows.filter (fun r => kindStr r.kind = k)).map (fun r => r.amount)).foldl
    (fun acc s =>
      match decimalParse s with
      | Except.ok v => acc + v
      | Except.error _ => acc)
    0

/-- An exported CASH_IN row with amount `"100.50"`. -/
def xrowA : ExcelRow :=
  { date := ⟨2025, 10, 5⟩, kind := TxKind.CASH_IN, amount := "100.50",
    details := "sale", category := "Sales", created_by := "owner1" }

/-- An exported CASH_IN row with amount `"200"`. -/
def xrowB : ExcelRow :=
  { date := ⟨2025, 10, 6⟩, kind := TxKind.CASH_IN, amount := "200",
    details := "sale", category := "Sales", created_by := "owner1" }

/-- C8 (code bug): for the exported set {CASH_IN "100.50", CASH_IN "200"},
the second sheet's CASH_IN cell is the **concatenation** `"100.50200"`
(pandas string sum), which does not denote the numeric total 300.50 of the
group. -/
theorem export_excel_summary_concatenates :
    export_excel_summary [xrowA, xrowB] = [("CASH_IN", "100.50200")] ∧
    summaryNumericTotalSpec [xrowA, xrowB] "CASH_IN" = (601 : Rat) / 2 ∧
    decimalParse "100.50200" ≠
      Except.ok (summaryNumericTotalSpec [xrowA, xrowB] "CASH_IN") := by
  have h2 : summaryNumericTotalSpec [xrowA, xrowB] "CASH_IN" = (601 : Rat) / 2 := by
    show 0 + ((10050 : Nat) : Rat) / 10 ^ 2 + ((200 : Nat) : Rat) = (601 : Rat) / 2
    push_cast
    norm_num
  refine ⟨by decide, h2, ?_⟩
  rw [h2]
  have e3 : decimalParse "100.50200" = Except.ok (((10050200 : Nat) : Rat) / 10 ^ 5) := rfl
  rw [e3]
  simp only [ne_eq, Except.ok.injEq]
  push_cast
  norm_num

/-! ### Document export (`book/views.py::export_pdf`)

```python
qs = Transaction.objects.filter(business_id=biz_id)
        .select_related('category','created_by').order_by('date')[:200]
...
row = [t.date.strftime('%Y-%m-%d'), t.kind, t.category.name, str(t.amount),
       t.details[:20] if t.details else '', t.created_by.username]
for i,val in enumerate(row):
    p.drawString(col_x[i], y, str(val)[:22])
```

The view never reads `request.GET`: no date or kind filter applies. -/

/-- Python string slicing `s[:n]` (by code points). -/
def pySlice (s : String) (n : Nat) : String := String.mk (s.data.take n)

/-- The query parameters the other views read (`period`, `date_from`,
`date_to`, `kind`); `export_pdf` receives them with the request but ignores
them. -/
structure FilterParams where
  period : Option String
  date_from : Option String
  date_to : Option String
  kind : Option String
deriving DecidableEq, Repr

/-- `ORDER BY date` ascending on transactions. -/
def txDateLe (a b : Transaction) : Prop := dateLe a.date b.date

instance : DecidableRel txDateLe := fun a b => by
  unfold txDateLe dateLe; infer_instance

instance : IsTotal Transaction txDateLe := ⟨by
  intro a b; unfold txDateLe dateLe; omega⟩

instance : IsTrans Transaction txDateLe := ⟨by
  intro a b c; unfold txDateLe dateLe; omega⟩

/-- Zero-padded two-digit field of `strftime`. -/
def pad2 (n : Nat) : String :=
  if n < 10 then "0" ++ toString n else toString n

/-- Zero-padded four-digit year field of `strftime('%Y-...')`. -/
def pad4 (n : Nat) : String :=
  if n < 10 then "000" ++ toString n
  else if n < 100 then "00" ++ toString n
  else if n < 1000 then "0" ++ toString n
  else toString n

/-- `date.strftime('%Y-%m-%d')`. -/
def dateFmt (d : PyDate) : String :=
  pad4 d.year ++ "-" ++ pad2 d.month ++ "-" ++ pad2 d.day

/-- The six text cells drawn for one transaction, each passed through
`str(val)[:22]`; the details value is `t.details[:20] if t.details else ''`
before that (for the empty string both give `''`, so one `pySlice`
suffices). -/
structure PdfRow where
  dateCell : String
  kindCell : String
  categoryCell : String
  amountCell : String
  detailsCell : String
  userCell : String
deriving DecidableEq, Repr

/-- Render one transaction's row; `cats` maps category ids to names
(`select_related('category')`). -/
def pdfRow (cats : List (Nat × String)) (t : Transaction) : PdfRow :=
  { dateCell := pySlice (dateFmt t.date) 22,
    kindCell := pySlice (kindStr t.kind) 22,
    categoryCell := pySlice ((cats.lookup t.category).getD "") 22,
    amountCell := pySlice t.amount 22,
    detailsCell := pySlice (pySlice t.details 20) 22,
    userCell := pySlice t.created_by 22 }

/-- The queryset of `export_pdf`: the business's transactions ordered by
date ascending, capped at 200 rows. -/
def export_pdf_qs (txs : List Transaction) : List Transaction :=
  (List.insertionSort txDateLe txs).take 200

/-- The rendered PDF body rows.  The filter parameters are accepted (they
arrive with every request) but the view never consults them. -/
def export_pdf_rows (cats : List (Nat × String)) (_params : FilterParams)
    (txs : List Transaction) : List PdfRow :=
  (export_pdf_qs txs).map (pdfRow cats)

/-- C9: the document export renders exactly `min 200 n` of the business's
`n` transactions, taken from a date-ascending ordering of all of them; every
rendered details cell has at most 20 characters; and the rendered rows do
not depend on the supplied filter parameters. -/
theorem export_pdf_fixed (cats : List (Nat × String)) (p q : FilterParams)
    (txs : List Transaction) :
    (export_pdf_rows cats p txs).length = min 200 txs.length ∧
    (List.insertionSort txDateLe txs).Perm txs ∧
    (export_pdf_qs txs).Pairwise txDateLe ∧
    (∀ r ∈ export_pdf_rows cats p txs, r.detailsCell.length ≤ 20) ∧
    export_pdf_rows cats p txs = export_pdf_rows cats q txs := by
  refine ⟨?_, List.perm_insertionSort txDateLe txs, ?_, ?_, rfl⟩
  · unfold export_pdf_rows export_pdf_qs
    rw [List.length_map, List.length_take,
      (List.perm_insertionSort txDateLe txs).length_eq]
  · exact (List.sorted_insertionSort txDateLe txs).sublist
      (List.take_sublist 200 (List.insertionSort txDateLe txs))
  · intro r hr
    rcases List.mem_map.mp hr with ⟨t, -, rfl⟩
    show (pySlice (pySlice t.details 20) 22).length ≤ 20
    unfold pySlice
    show ((t.details.data.take 20).take 22).length ≤ 20
    rw [List.length_take, List.length_take]
    omega

/-! ### Category creation (`book/views.py::create_transaction_category`)

```python
post_data = request.POST.copy()
post_data['business'] = request.session['biz_id']
form = CategoryForm(post_data)
if form.is_valid():
    category = form.save()
```

The client's `business` value is overwritten with the session's active
business before the form is even constructed. -/

/-- A `TransactionCategory` row (`book/models.py`). -/
structure CategoryRec where
  business : Nat
  name : String
  kind : String
deriving DecidableEq, Repr

/-- The POSTed fields of `CategoryForm` (`fields = ['business','name','kind']`). -/
structure CategoryPost where
  business : Nat
  name : String
  kind : String
deriving DecidableEq, Repr

/-- `CategoryForm.is_valid()`: the business must exist, `name` is required
with `max_length=100`, `kind` must be one of the `TextChoices` values, and
the model's `unique_together ('business','name','kind')` must not be
violated. -/
def categoryFormValid (businesses : List Nat) (cats : List CategoryRec)
    (p : CategoryPost) : Bool :=
  businesses.contains p.business && !(p.name = "") && p.name.length ≤ 100 &&
    (p.kind = "INCOME" || p.kind = "EXPENSE") &&
    !(cats.any (fun c => c.business = p.business && c.name = p.name && c.kind = p.kind))

/-- `create_transaction_category` (POST): the posted `business` field is
replaced by the session's `biz_id`; a valid form saves the row and answers
JSON success, an invalid one answers JSON status 400. -/
def create_transaction_category (businesses : List Nat) (sessionBiz : Nat)
    (post : CategoryPost) (cats : List CategoryRec) : HttpResp × List CategoryRec :=
  let posted : CategoryPost := { post with business := sessionBiz }
  if categoryFormValid businesses cats posted then
    (HttpResp.json true 200, cats ++ [⟨posted.business, posted.name, posted.kind⟩])
  else
    (HttpResp.json false 400, cats)

/-- C10: every category row added by the category-creation endpoint belongs
to the session's active business, and the endpoint's outcome is entirely
independent of the client-submitted `business` value (it is overwritten
before validation). -/
theorem create_transaction_category_scoped (businesses : List Nat) (sessionBiz : Nat)
    (post : CategoryPost) (cats : List CategoryRec) :
    (∀ c, c ∈ (create_transaction_category businesses sessionBiz post cats).2 →
      c ∈ cats ∨ c.business = sessionBiz) ∧
    (∀ b, create_transaction_category businesses sessionBiz { post with business := b } cats =
      create_transaction_category businesses sessionBiz post cats) := by
  constructor
  · intro c hc
    unfold create_transaction_category at hc
    by_cases hv : categoryFormValid businesses cats { post with business := sessionBiz } = true
    · simp only [if_pos hv] at hc
      rcases List.mem_append.mp hc with hc' | hc'
      · exact Or.inl hc'
      · right
        rw [List.mem_singleton.mp hc']
    · simp only [if_neg hv] at hc
      exact Or.inl hc
  · intro b
    rfl

/-- A category submission naming business 9 while business 1 is selected. -/
def postFood : CategoryPost := ⟨9, "Food", "INCOME"⟩

/-- Witness for `create_transaction_category_scoped`: with business 1
selected, the submission naming business 9 creates a row, and that row is
scoped to business 1. -/
theorem create_transaction_category_scoped_witness :
    (CategoryRec.mk 1 "Food" "INCOME") ∈
      (create_transaction_category [1] 1 postFood []).2 ∧
    ((CategoryRec.mk 1 "Food" "INCOME") ∈ ([] : List CategoryRec) ∨
      (CategoryRec.mk 1 "Food" "INCOME").business = 1) :=
  ⟨by decide,
   (create_transaction_category_scoped [1] 1 postFood []).1
     (CategoryRec.mk 1 "Food" "INCOME") (by decide)⟩

/-- A transaction for the document-export witness. -/
def txPdf : Transaction :=
  { business := 1, kind := TxKind.CASH_OUT, amount := "12.75",
    date := ⟨2025, 9, 30⟩, details := "a fairly long line of details text",
    category := 3, created_by := "staffer" }

/-- Filter parameters as the dashboard would send them. -/
def pdfParamsA : FilterParams :=
  ⟨some "this_month", none, none, some "ALL"⟩

/-- Different filter parameters: a custom range restricted to CASH_IN. -/
def pdfParamsB : FilterParams :=
  ⟨some "custom", some "2020-01-01", some "2020-12-31", some "CASH_IN"⟩

/-- Witness for `export_pdf_fixed`: one stored transaction, two different
filter parameter sets — one row rendered, its details cell at most 20
characters, identical output for both parameter sets. -/
theorem export_pdf_fixed_witness :
    (export_pdf_rows [(3, "Rent")] pdfParamsA [txPdf]).length = min 200 1 ∧
    (pdfRow [(3, "Rent")] txPdf).detailsCell.length ≤ 20 ∧
    export_pdf_rows [(3, "Rent")] pdfParamsA [txPdf] =
      export_pdf_rows [(3, "Rent")] pdfParamsB [txPdf] := by
  have h := export_pdf_fixed [(3, "Rent")] pdfParamsA pdfParamsB [txPdf]
  exact ⟨h.1, h.2.2.2.1 (pdfRow [(3, "Rent")] txPdf) (by decide), h.2.2.2.2⟩
